import Mathlib

/-!
Verification of the protorpc-standalone client transport layer
(`protorpc/transport.py`).

The production module is absent from the available sources; only its test
suite (`protorpc/transport_test.py`) and `google_imports.py` are present.
All definitions below are therefore modelled from the specification of the
transport layer, checked for consistency with the expectations recorded in
the test suite.  Each definition's doc comment records what it models.
-/

namespace Transport

/-- Modelled from the spec: the Rpc state machine states — `RUNNING`
(initial) and the five terminal states `OK`, `APPLICATION_ERROR`,
`REQUEST_ERROR`, `SERVER_ERROR`, `NETWORK_ERROR` (spec section 4.1). -/
inductive RpcState where
  | RUNNING
  | OK
  | APPLICATION_ERROR
  | REQUEST_ERROR
  | SERVER_ERROR
  | NETWORK_ERROR
deriving DecidableEq, Repr

/-- Modelled from the spec: a Python value handed to the transport layer.
Either a protorpc message instance (tagged with its message type name and
an abstract payload) or a non-message value such as the integer `10` used
by the tests. -/
inductive PyValue where
  | message (type_name : String) (payload : String)
  | intVal (n : Int)
deriving DecidableEq, Repr

/-- Modelled from the spec: `isinstance(value, messages.Message)` — whether
a value is a protorpc message at all. -/
def PyValue.isMessage : PyValue → Bool
  | .message _ _ => true
  | _ => false

/-- Modelled from the spec: whether a value is an instance of the expected
response message type declared by the method descriptor (spec 4.1:
`set_response` "requires ... `message` to be an instance of the expected
response message type"). -/
def PyValue.isMessageOfType (v : PyValue) (type_name : String) : Bool :=
  match v with
  | .message t _ => t = type_name
  | _ => false

/-- Modelled from the spec: a short printable description of a value, used
in the type-error message (the tests expect
"Expected Message type, received 10"). -/
def PyValue.describe : PyValue → String
  | .message t _ => t
  | .intVal n => toString n

/-- Modelled from the spec: the terminal non-OK outcomes an RpcStatus can
encode (spec section 3: RpcStatus is "the wire-level encoding of a terminal
non-OK outcome"). -/
inductive ErrorState where
  | APPLICATION_ERROR
  | REQUEST_ERROR
  | SERVER_ERROR
  | NETWORK_ERROR
deriving DecidableEq, Repr

/-- Modelled from the spec: the Rpc state named by a terminal non-OK
outcome. -/
def ErrorState.toRpcState : ErrorState → RpcState
  | ErrorState.APPLICATION_ERROR => RpcState.APPLICATION_ERROR
  | ErrorState.REQUEST_ERROR => RpcState.REQUEST_ERROR
  | ErrorState.SERVER_ERROR => RpcState.SERVER_ERROR
  | ErrorState.NETWORK_ERROR => RpcState.NETWORK_ERROR

/-- Modelled from the spec: `remote.RpcStatus`, the wire-level encoding of a
terminal non-OK outcome: `{state, error_message, error_name}` (spec
section 3).  `state` is optional so that an uninitialized status (missing
its `state` field) is representable. -/
structure RpcStatus where
  state : Option ErrorState
  error_message : Option String
  error_name : Option String
deriving DecidableEq, Repr

/-- Modelled from the spec: the synchronous errors an Rpc mutator can raise:
`TypeError` (non-message response value), `RpcStateError` (second terminal
transition), and `messages.ValidationError` (uninitialized RpcStatus). -/
inductive RpcError where
  | typeError (msg : String)
  | rpcStateError (msg : String)
  | validationError
deriving DecidableEq, Repr

/-- Modelled from the spec: the `Rpc` object,
`{request, state, response, error_message, error_name}` (spec section 3),
together with the declared response message type of the method being
called, against which `set_response` values are checked. -/
structure Rpc where
  request : PyValue
  response_type : String
  state : RpcState
  response : Option PyValue
  error_message : Option String
  error_name : Option String
deriving DecidableEq, Repr

/-- Modelled from the spec: Rpc construction at dispatch time — created in
the RUNNING state with no response and no error fields (spec 3:
"created RUNNING at dispatch time by a Transport backend"). -/
def Rpc.create (request : PyValue) (response_type : String) : Rpc :=
  { request := request
    response_type := response_type
    state := RpcState.RUNNING
    response := none
    error_message := none
    error_name := none }

/-- Modelled from the spec: `Rpc.set_response(message)` — requires the
current state to be RUNNING (otherwise an RPC-state error
"RPC must be in RUNNING state to change to OK") and the value to be an
instance of the expected response message type (otherwise a type error);
on success sets state OK and stores the message (spec 4.1). -/
def set_response (rpc : Rpc) (response : PyValue) : Except RpcError Rpc :=
  if rpc.state ≠ RpcState.RUNNING then
    Except.error (RpcError.rpcStateError
      "RPC must be in RUNNING state to change to OK")
  else if response.isMessageOfType rpc.response_type then
    Except.ok { rpc with state := RpcState.OK, response := some response }
  else
    Except.error (RpcError.typeError
      ("Expected Message type, received " ++ response.describe))

/-- Modelled from the spec: `Rpc.set_status(status)` — requires the current
state to be RUNNING (same RPC-state failure as `set_response`) and the
status to be a fully-initialized RpcStatus (a status missing its `state`
field fails with a validation error); on success applies `status.state`,
`error_message` and `error_name` (spec 4.1, 3). -/
def set_status (rpc : Rpc) (status : RpcStatus) : Except RpcError Rpc :=
  if rpc.state ≠ RpcState.RUNNING then
    Except.error (RpcError.rpcStateError
      "RPC must be in RUNNING state to change to OK")
  else
    match status.state with
    | none => Except.error RpcError.validationError
    | some s =>
        Except.ok { rpc with
          state := s.toRpcState
          error_message := status.error_message
          error_name := status.error_name }

/-- Modelled from the spec: the four client-visible error categories raised
when reading `Rpc.response` in a terminal error state (spec section 7).
`ApplicationError` carries the stored message and error name; the other
categories carry only the message. -/
inductive RaisedError where
  | applicationError (msg : Option String) (error_name : Option String)
  | requestError (msg : Option String)
  | serverError (msg : Option String)
  | networkError (msg : Option String)
deriving DecidableEq, Repr

/-- Modelled from the spec: the error category matching each terminal error
state, constructed from the Rpc's stored `error_message` and `error_name`
(spec 4.1: reading `response` in an error state "raises the error category
matching that state").  `none` for RUNNING and OK. -/
def matchingError (rpc : Rpc) : Option RaisedError :=
  match rpc.state with
  | RpcState.APPLICATION_ERROR =>
      some (RaisedError.applicationError rpc.error_message rpc.error_name)
  | RpcState.REQUEST_ERROR => some (RaisedError.requestError rpc.error_message)
  | RpcState.SERVER_ERROR => some (RaisedError.serverError rpc.error_message)
  | RpcState.NETWORK_ERROR => some (RaisedError.networkError rpc.error_message)
  | _ => none

/-- Modelled from the spec: reading the `Rpc.response` property — returns
the stored message when state is OK, raises the matching error category in
a terminal error state; in RUNNING state the base blocking hook is a no-op
extension point, so the (still unset) response is returned (spec 4.1). -/
def Rpc.readResponse (rpc : Rpc) : Except RaisedError (Option PyValue) :=
  match rpc.state with
  | RpcState.OK => Except.ok rpc.response
  | RpcState.RUNNING => Except.ok rpc.response
  | RpcState.APPLICATION_ERROR =>
      Except.error (RaisedError.applicationError rpc.error_message rpc.error_name)
  | RpcState.REQUEST_ERROR =>
      Except.error (RaisedError.requestError rpc.error_message)
  | RpcState.SERVER_ERROR =>
      Except.error (RaisedError.serverError rpc.error_message)
  | RpcState.NETWORK_ERROR =>
      Except.error (RaisedError.networkError rpc.error_message)

/-- Modelled from the spec: a successful terminal transition — `r` is the
result of a successful `set_response` or `set_status` call on `rpc`. -/
def stepOk (rpc r : Rpc) : Prop :=
  (∃ v, set_response rpc v = Except.ok r) ∨
  (∃ s, set_status rpc s = Except.ok r)

/-- Modelled from the spec: the narrow codec interface a ProtocolConfig
offers the transport (spec section 6): a content-type label, decoding of a
response body into a message of the declared response type, and decoding of
an error body into an RpcStatus (`decode_status` returns `none` when the
body fails to decode as an RpcStatus). -/
structure ProtocolConfig where
  content_type : String
  decode_message : String → String → Option PyValue
  decode_status : String → Option RpcStatus

/-- Modelled from the spec: the observable outcome of the underlying HTTP
fetch (spec 4.3): a 2xx success with a body, an HTTP error response carrying
a status code, a reason phrase, an optional content-type header and a body,
or a connection-level failure with no HTTP response at all. -/
inductive FetchResult where
  | success (body : String)
  | httpError (code : Nat) (reason : String) (content_type : Option String)
      (body : String)
  | connectionError (msg : String)

/-- Modelled from the spec: applying a terminal transition inside a
transport backend; the backend owns the freshly created RUNNING Rpc, so the
transition always succeeds and the error branch is unreachable. -/
def applyOr (rpc : Rpc) : Except RpcError Rpc → Rpc
  | Except.ok r => r
  | Except.error _ => rpc

/-- Modelled from the spec: HTTP error classification (spec 4.3 error
mapping table).  When the response content-type matches the protocol's
content-type and the body decodes as a valid RpcStatus, that status is
applied; otherwise the Rpc is set to SERVER_ERROR with message
"HTTP Error <code>: <reason phrase>" and no error name. -/
def handle_http_error (protocol : ProtocolConfig) (rpc : Rpc) (code : Nat)
    (reason : String) (content_type : Option String) (body : String) : Rpc :=
  let fallback := applyOr rpc (set_status rpc
    { state := some ErrorState.SERVER_ERROR
      error_message := some ("HTTP Error " ++ toString code ++ ": " ++ reason)
      error_name := none })
  if content_type = some protocol.content_type then
    match protocol.decode_status body with
    | some status =>
        match status.state with
        | some _ => applyOr rpc (set_status rpc status)
        | none => fallback
    | none => fallback
  else fallback

/-- Modelled from the spec: the outcome of one HttpTransport call over the
generic synchronous URL-fetch backend (urllib): a fresh RUNNING Rpc is
resolved from the fetch result — 2xx decodes the body as the response
message, an HTTP error is classified by the error mapping table, and a
connection-level failure becomes NETWORK_ERROR with message
"Network Error: <underlying message>" (spec 4.3). -/
def http_rpc_result (protocol : ProtocolConfig) (request : PyValue)
    (response_type : String) (fetch : FetchResult) : Rpc :=
  let rpc := Rpc.create request response_type
  match fetch with
  | FetchResult.success body =>
      match protocol.decode_message response_type body with
      | some msg => applyOr rpc (set_response rpc msg)
      | none => rpc
  | FetchResult.httpError code reason content_type body =>
      handle_http_error protocol rpc code reason content_type body
  | FetchResult.connectionError msg =>
      applyOr rpc (set_status rpc
        { state := some ErrorState.NETWORK_ERROR
          error_message := some ("Network Error: " ++ msg)
          error_name := none })

/-- Modelled from the spec: the standard HTTP reason-phrase table (Python's
`httplib.responses`), used by the urlfetch backend, whose responses carry
only a numeric status code. -/
def http_responses : Nat → String
  | 200 => "OK"
  | 301 => "Moved Permanently"
  | 302 => "Found"
  | 400 => "Bad Request"
  | 401 => "Unauthorized"
  | 403 => "Forbidden"
  | 404 => "Not Found"
  | 500 => "Internal Server Error"
  | 501 => "Not Implemented"
  | 502 => "Bad Gateway"
  | 503 => "Service Unavailable"
  | _ => ""

/-- Modelled from the spec: the outcome of one HttpTransport call over the
platform urlfetch backend.  The response carries only a numeric status
code, so the reason phrase for the error mapping is synthesized from the
standard reason-phrase table; the error mapping itself is applied uniformly
regardless of backend (spec 4.3). -/
def urlfetch_rpc_result (protocol : ProtocolConfig) (request : PyValue)
    (response_type : String) (code : Nat) (content_type : Option String)
    (body : String) : Rpc :=
  let rpc := Rpc.create request response_type
  if 200 ≤ code ∧ code < 300 then
    match protocol.decode_message response_type body with
    | some msg => applyOr rpc (set_response rpc msg)
    | none => rpc
  else
    handle_http_error protocol rpc code (http_responses code) content_type body

/-- Modelled from the spec: the request-context object handed to a service
method, `{remote_host, remote_address, server_host, server_port}` (spec
section 6). -/
structure RequestState where
  remote_host : String
  remote_address : String
  server_host : String
  server_port : Int
deriving DecidableEq, Repr

/-- Modelled from the spec: the locally-synthesized request-context used by
LocalTransport — fixed loopback address, local hostname for both host
fields, and the sentinel port value -1 meaning "not network-served"
(spec 4.4). -/
def localRequestState (hostname : String) : RequestState :=
  { remote_host := hostname
    remote_address := "127.0.0.1"
    server_host := hostname
    server_port := -1 }

/-- Modelled from the spec: the observable outcome of invoking a service
method directly (spec 4.4): a normal return of a message, a declared
application-level error (message and error name preserved verbatim), or
any other raised exception, identified by its type name and text — this
covers both request-shape errors such as RequestError and wholly
unrecognized types such as TypeError. -/
inductive ServiceOutcome where
  | returns (response : PyValue)
  | applicationError (msg : String) (error_name : Option String)
  | unexpected (kind : String) (msg : String)
deriving DecidableEq, Repr

/-- Modelled from the spec: a service instance — a callable-method surface
taking a request-context and a decoded request message (spec section 6). -/
structure ServiceInstance where
  method : RequestState → PyValue → ServiceOutcome

/-- Modelled from the spec: what a LocalTransport is constructed with —
either a service class (a fresh instance is constructed per call) or a
pre-bound factory callable producing service instances (spec 4.4). -/
inductive ServiceSpec where
  | ofClass (construct : Unit → ServiceInstance)
  | ofFactory (factory : Unit → ServiceInstance)

/-- Modelled from the spec: obtaining a fresh service instance for one
dispatch, from either form of construction. -/
def ServiceSpec.newInstance : ServiceSpec → Unit → ServiceInstance
  | ServiceSpec.ofClass construct => construct
  | ServiceSpec.ofFactory factory => factory

/-- Modelled from the spec: one LocalTransport call (spec 4.4).  The target
method is invoked synchronously on a freshly produced service instance with
the locally-synthesized request-context; a normal return is applied with
`set_response`, a declared application error becomes APPLICATION_ERROR with
its message and error name preserved, and any other exception becomes
SERVER_ERROR with message "Unexpected error <ExceptionKind>: <text>". -/
def local_transport_call (hostname : String) (service : ServiceSpec)
    (response_type : String) (request : PyValue) : Rpc :=
  let inst := service.newInstance ()
  let rpc := Rpc.create request response_type
  match inst.method (localRequestState hostname) request with
  | ServiceOutcome.returns response => applyOr rpc (set_response rpc response)
  | ServiceOutcome.applicationError msg error_name =>
      applyOr rpc (set_status rpc
        { state := some ErrorState.APPLICATION_ERROR
          error_message := some msg
          error_name := error_name })
  | ServiceOutcome.unexpected kind msg =>
      applyOr rpc (set_status rpc
        { state := some ErrorState.SERVER_ERROR
          error_message := some ("Unexpected error " ++ kind ++ ": " ++ msg)
          error_name := none })

/-- Modelled from the spec: a concrete protojson-style protocol binding used
to exercise the transport model on concrete inputs.  Its content-type is
"application/json"; it decodes the single body "{state: REQUEST_ERROR}"
as `RpcStatus(state=REQUEST_ERROR, error_message="an error")` and decodes
any body as a message of the requested type. -/
def demoProtocol : ProtocolConfig :=
  { content_type := "application/json"
    decode_message := fun type_name body => some (PyValue.message type_name body)
    decode_status := fun body =>
      if body = "status-body" then
        some { state := some ErrorState.REQUEST_ERROR
               error_message := some "an error"
               error_name := none }
      else none }

/-- Concrete request message used to exercise the model, mirroring
`Message(value=u'request')` from the test suite. -/
def demoRequest : PyValue := PyValue.message "Message" "request"

/-- Concrete response message used to exercise the model, mirroring
`Message(value=u'response')` from the test suite. -/
def demoResponse : PyValue := PyValue.message "Message" "response"

/-- Concrete freshly created Rpc for a method whose declared response type
is `Message`. -/
def demoRpc : Rpc := Rpc.create demoRequest "Message"

/-- The Rpc obtained from `demoRpc` by a successful `set_response`. -/
def demoDone : Rpc :=
  { demoRpc with state := RpcState.OK, response := some demoResponse }

/-- The Rpc obtained from `demoRpc` by a successful
`set_status(RpcStatus(state=APPLICATION_ERROR, error_message='an error',
error_name='blam'))`, mirroring the status used throughout `RpcTest`. -/
def demoErrored : Rpc :=
  { demoRpc with
      state := RpcState.APPLICATION_ERROR
      error_message := some "an error"
      error_name := some "blam" }

/-- Concrete local service whose method echoes the remote address of the
request-context it is given, mirroring `LocalService.call_method`. -/
def demoLocalService : ServiceInstance :=
  { method := fun st _ =>
      ServiceOutcome.returns (PyValue.message "SimpleResponse" st.remote_address) }

/-- Concrete local service whose method raises `TypeError('Kablam')`,
mirroring `LocalService.raise_totally_unexpected`. -/
def demoFailingService : ServiceInstance :=
  { method := fun _ _ => ServiceOutcome.unexpected "TypeError" "Kablam" }

/-- On an Rpc that is no longer RUNNING, `set_response` fails with the
RPC-state error. -/
theorem set_response_terminal {rpc : Rpc} (h : rpc.state ≠ RpcState.RUNNING)
    (v : PyValue) :
    set_response rpc v = Except.error (RpcError.rpcStateError
      "RPC must be in RUNNING state to change to OK") := by
  unfold set_response
  rw [if_pos h]

/-- On an Rpc that is no longer RUNNING, `set_status` fails with the
RPC-state error. -/
theorem set_status_terminal {rpc : Rpc} (h : rpc.state ≠ RpcState.RUNNING)
    (s : RpcStatus) :
    set_status rpc s = Except.error (RpcError.rpcStateError
      "RPC must be in RUNNING state to change to OK") := by
  unfold set_status
  rw [if_pos h]

/-- A successful `set_response` produces exactly the input Rpc moved to OK
with the response stored. -/
theorem set_response_ok {rpc r : Rpc} {v : PyValue}
    (h : set_response rpc v = Except.ok r) :
    r = { rpc with state := RpcState.OK, response := some v } := by
  unfold set_response at h
  split at h
  · exact absurd h (by simp)
  · split at h
    · exact (Except.ok.inj h).symm
    · exact absurd h (by simp)

/-- A successful `set_status` produces exactly the input Rpc moved to the
terminal state named by the status, with the status fields stored. -/
theorem set_status_ok {rpc r : Rpc} {st : RpcStatus}
    (h : set_status rpc st = Except.ok r) :
    ∃ s, st.state = some s ∧
      r = { rpc with
              state := s.toRpcState
              error_message := st.error_message
              error_name := st.error_name } := by
  unfold set_status at h
  split at h
  · exact absurd h (by simp)
  · split at h
    · exact absurd h (by simp)
    · next s hst => exact ⟨s, hst, (Except.ok.inj h).symm⟩

/-- The state named by a terminal non-OK outcome is never RUNNING. -/
theorem toRpcState_ne_running (s : ErrorState) :
    s.toRpcState ≠ RpcState.RUNNING := by
  cases s <;> simp [ErrorState.toRpcState]

/-- On a RUNNING Rpc, the HTTP error handler applies the decoded, valid
RpcStatus when the content-type matches the protocol. -/
theorem handle_http_error_status (protocol : ProtocolConfig) (rpc : Rpc)
    (hrun : rpc.state = RpcState.RUNNING)
    (body : String) (status : RpcStatus) (s : ErrorState)
    (hdec : protocol.decode_status body = some status)
    (hstate : status.state = some s)
    (code : Nat) (reason : String) :
    handle_http_error protocol rpc code reason (some protocol.content_type) body
      = { rpc with
            state := s.toRpcState
            error_message := status.error_message
            error_name := status.error_name } := by
  unfold handle_http_error
  rw [if_pos rfl, hdec]
  simp [set_status, applyOr, hrun, hstate]

/-- On a RUNNING Rpc, the HTTP error handler falls back to SERVER_ERROR
with the synthesized "HTTP Error" message when the content-type does not
match the protocol, or when the body fails to decode as an RpcStatus. -/
theorem handle_http_error_fallback (protocol : ProtocolConfig) (rpc : Rpc)
    (hrun : rpc.state = RpcState.RUNNING)
    (content_type : Option String) (body : String)
    (h : content_type ≠ some protocol.content_type ∨
      protocol.decode_status body = none)
    (code : Nat) (reason : String) :
    handle_http_error protocol rpc code reason content_type body
      = { rpc with
            state := RpcState.SERVER_ERROR
            error_message :=
              some ("HTTP Error " ++ toString code ++ ": " ++ reason)
            error_name := none } := by
  unfold handle_http_error
  rcases h with hct | hdec
  · rw [if_neg hct]
    simp [set_status, applyOr, hrun, ErrorState.toRpcState]
  · by_cases hct : content_type = some protocol.content_type
    · rw [if_pos hct, hdec]
      simp [set_status, applyOr, hrun, ErrorState.toRpcState]
    · rw [if_neg hct]
      simp [set_status, applyOr, hrun, ErrorState.toRpcState]

/-- C1: For every Rpc instance, the state is RUNNING at construction; a
successful `set_response` or `set_status` moves the Rpc out of RUNNING, so
at most one such call succeeds; and after the successful terminal
transition every subsequent call to `set_response` or `set_status` fails
with an RpcStateError whose message is "RPC must be in RUNNING state to
change to OK", producing no updated Rpc, so the terminal state is
unchanged. -/
theorem C1_rpc_single_terminal_transition
    (request : PyValue) (response_type : String) (rpc r : Rpc)
    (h : stepOk rpc r) :
    (Rpc.create request response_type).state = RpcState.RUNNING ∧
    r.state ≠ RpcState.RUNNING ∧
    (∀ v, set_response r v = Except.error (RpcError.rpcStateError
      "RPC must be in RUNNING state to change to OK")) ∧
    (∀ st, set_status r st = Except.error (RpcError.rpcStateError
      "RPC must be in RUNNING state to change to OK")) := by
  have hne : r.state ≠ RpcState.RUNNING := by
    rcases h with ⟨v, hv⟩ | ⟨st, hst⟩
    · rw [set_response_ok hv]
      simp
    · rcases set_status_ok hst with ⟨s, _, hr⟩
      rw [hr]
      exact toRpcState_ne_running s
  exact ⟨rfl, hne, fun v => set_response_terminal hne v,
    fun st => set_status_terminal hne st⟩

/-- Witness for C1: the concrete Rpc of the test suite, completed once by
`set_response`; the second `set_response` and a following `set_status`
both fail with the RPC-state error. -/
theorem C1_rpc_single_terminal_transition_witness :
    stepOk demoRpc demoDone ∧
    (Rpc.create demoRequest "Message").state = RpcState.RUNNING ∧
    demoDone.state ≠ RpcState.RUNNING ∧
    set_response demoDone demoResponse = Except.error (RpcError.rpcStateError
      "RPC must be in RUNNING state to change to OK") ∧
    set_status demoDone
        { state := some ErrorState.APPLICATION_ERROR
          error_message := some "an error"
          error_name := some "blam" }
      = Except.error (RpcError.rpcStateError
        "RPC must be in RUNNING state to change to OK") := by
  have h : stepOk demoRpc demoDone := Or.inl ⟨demoResponse, by rfl⟩
  have hc := C1_rpc_single_terminal_transition demoRequest "Message"
    demoRpc demoDone h
  exact ⟨h, hc.1, hc.2.1, hc.2.2.1 demoResponse, hc.2.2.2 _⟩

/-- C8: For every Rpc in RUNNING state, `set_response` with a value that is
not of the declared response message type fails with a type error; the
call produces no updated Rpc, so the Rpc state remains RUNNING. -/
theorem C8_set_response_type_error
    (rpc : Rpc) (v : PyValue)
    (hrun : rpc.state = RpcState.RUNNING)
    (hv : v.isMessageOfType rpc.response_type = false) :
    set_response rpc v = Except.error (RpcError.typeError
      ("Expected Message type, received " ++ v.describe)) ∧
    rpc.state = RpcState.RUNNING := by
  refine ⟨?_, hrun⟩
  unfold set_response
  rw [if_neg (by simp [hrun]), if_neg (by simp [hv])]

/-- Witness for C8: `set_response(10)` on the freshly created test Rpc
fails with "Expected Message type, received 10" and the state is still
RUNNING. -/
theorem C8_set_response_type_error_witness :
    set_response demoRpc (PyValue.intVal 10)
      = Except.error (RpcError.typeError "Expected Message type, received 10") ∧
    demoRpc.state = RpcState.RUNNING := by
  have hc := C8_set_response_type_error demoRpc (PyValue.intVal 10)
    (by decide) (by decide)
  exact ⟨hc.1, hc.2⟩

/-- C9: For every Rpc in RUNNING state, `set_status` with an RpcStatus
missing its `state` field fails with a validation error; the call produces
no updated Rpc, so the Rpc state remains RUNNING. -/
theorem C9_set_status_validation_error
    (rpc : Rpc) (em en : Option String)
    (hrun : rpc.state = RpcState.RUNNING) :
    set_status rpc { state := none, error_message := em, error_name := en }
      = Except.error RpcError.validationError ∧
    rpc.state = RpcState.RUNNING := by
  refine ⟨?_, hrun⟩
  unfold set_status
  rw [if_neg (by simp [hrun])]

/-- Witness for C9: `set_status(RpcStatus())` on the freshly created test
Rpc fails with a validation error and the state is still RUNNING. -/
theorem C9_set_status_validation_error_witness :
    set_status demoRpc { state := none, error_message := none, error_name := none }
      = Except.error RpcError.validationError ∧
    demoRpc.state = RpcState.RUNNING :=
  C9_set_status_validation_error demoRpc none none (by decide)

/-- C2: For every HttpTransport call receiving an HTTP error response whose
content-type matches the protocol's content-type and whose body decodes as
a valid RpcStatus, the resulting Rpc's state is the decoded status's own
state and its error_message is the decoded status's own error_message. -/
theorem C2_http_error_decoded_status
    (protocol : ProtocolConfig) (request : PyValue) (response_type : String)
    (code : Nat) (reason body : String) (status : RpcStatus) (s : ErrorState)
    (hdec : protocol.decode_status body = some status)
    (hstate : status.state = some s) :
    (http_rpc_result protocol request response_type
        (FetchResult.httpError code reason (some protocol.content_type) body)).state
      = s.toRpcState ∧
    (http_rpc_result protocol request response_type
        (FetchResult.httpError code reason (some protocol.content_type) body)).error_message
      = status.error_message := by
  have hr := handle_http_error_status protocol (Rpc.create request response_type)
    rfl body status s hdec hstate code reason
  have hred : http_rpc_result protocol request response_type
      (FetchResult.httpError code reason (some protocol.content_type) body)
    = handle_http_error protocol (Rpc.create request response_type)
        code reason (some protocol.content_type) body := rfl
  rw [hred, hr]
  exact ⟨rfl, rfl⟩

/-- Witness for C2: a 500 response with matching content-type whose body
decodes to `RpcStatus(state=REQUEST_ERROR, error_message='an error')`
yields state REQUEST_ERROR with message "an error". -/
theorem C2_http_error_decoded_status_witness :
    demoProtocol.decode_status "status-body"
      = some { state := some ErrorState.REQUEST_ERROR
               error_message := some "an error"
               error_name := none } ∧
    (http_rpc_result demoProtocol demoRequest "Message"
        (FetchResult.httpError 500 "An error occured"
          (some "application/json") "status-body")).state
      = RpcState.REQUEST_ERROR ∧
    (http_rpc_result demoProtocol demoRequest "Message"
        (FetchResult.httpError 500 "An error occured"
          (some "application/json") "status-body")).error_message
      = some "an error" := by
  have hc := C2_http_error_decoded_status demoProtocol demoRequest "Message"
    500 "An error occured" "status-body"
    { state := some ErrorState.REQUEST_ERROR
      error_message := some "an error"
      error_name := none }
    ErrorState.REQUEST_ERROR (by rfl) (by rfl)
  exact ⟨by rfl, hc.1, hc.2⟩

/-- C3: For every HttpTransport call receiving an HTTP error response the
client cannot interpret as a structured RpcStatus — the content-type does
not match the protocol, or it matches but the body fails to decode as an
RpcStatus — the resulting Rpc state is SERVER_ERROR, its error_message is
"HTTP Error <code>: <reason phrase>", and its error_name is absent. -/
theorem C3_http_error_unstructured
    (protocol : ProtocolConfig) (request : PyValue) (response_type : String)
    (code : Nat) (reason body : String) (content_type : Option String)
    (h : content_type ≠ some protocol.content_type ∨
      protocol.decode_status body = none) :
    (http_rpc_result protocol request response_type
        (FetchResult.httpError code reason content_type body)).state
      = RpcState.SERVER_ERROR ∧
    (http_rpc_result protocol request response_type
        (FetchResult.httpError code reason content_type body)).error_message
      = some ("HTTP Error " ++ toString code ++ ": " ++ reason) ∧
    (http_rpc_result protocol request response_type
        (FetchResult.httpError code reason content_type body)).error_name
      = none := by
  have hr := handle_http_error_fallback protocol (Rpc.create request response_type)
    rfl content_type body h code reason
  have hred : http_rpc_result protocol request response_type
      (FetchResult.httpError code reason content_type body)
    = handle_http_error protocol (Rpc.create request response_type)
        code reason content_type body := rfl
  rw [hred, hr]
  exact ⟨rfl, rfl, rfl⟩

/-- Witness for C3: a 500 response with matching content-type but an
undecodable body yields SERVER_ERROR with message
"HTTP Error 500: An error occured" and no error name. -/
theorem C3_http_error_unstructured_witness :
    demoProtocol.decode_status "a text message is here anyway" = none ∧
    (http_rpc_result demoProtocol demoRequest "Message"
        (FetchResult.httpError 500 "An error occured"
          (some "application/json") "a text message is here anyway")).state
      = RpcState.SERVER_ERROR ∧
    (http_rpc_result demoProtocol demoRequest "Message"
        (FetchResult.httpError 500 "An error occured"
          (some "application/json") "a text message is here anyway")).error_message
      = some "HTTP Error 500: An error occured" ∧
    (http_rpc_result demoProtocol demoRequest "Message"
        (FetchResult.httpError 500 "An error occured"
          (some "application/json") "a text message is here anyway")).error_name
      = none := by
  have hdec : demoProtocol.decode_status "a text message is here anyway" = none := by
    rfl
  have hc := C3_http_error_unstructured demoProtocol demoRequest "Message"
    500 "An error occured" "a text message is here anyway"
    (some "application/json") (Or.inr hdec)
  refine ⟨hdec, hc.1, ?_, hc.2.2⟩
  rw [hc.2.1]
  rfl

/-- C4: For every HttpTransport call whose underlying fetch fails at the
connection level (no HTTP response at all), the resulting Rpc state is
NETWORK_ERROR, its error_message is "Network Error: <underlying message>",
and its error_name is absent. -/
theorem C4_network_error
    (protocol : ProtocolConfig) (request : PyValue) (response_type : String)
    (msg : String) :
    (http_rpc_result protocol request response_type
        (FetchResult.connectionError msg)).state = RpcState.NETWORK_ERROR ∧
    (http_rpc_result protocol request response_type
        (FetchResult.connectionError msg)).error_message
      = some ("Network Error: " ++ msg) ∧
    (http_rpc_result protocol request response_type
        (FetchResult.connectionError msg)).error_name = none := by
  unfold http_rpc_result
  simp [set_status, applyOr, Rpc.create, ErrorState.toRpcState]

/-- C5: For every Rpc in a terminal error state, reading the response
property raises the exception category matching that state, constructed
from the stored error_message and error_name; in particular, after
`set_status(state=APPLICATION_ERROR, error_message='an error',
error_name='blam')`, reading response raises ApplicationError with message
"an error" and the Rpc's error_name equals "blam". -/
theorem C5_response_raises_matching_error
    (rpc r : Rpc)
    (h : set_status rpc
        { state := some ErrorState.APPLICATION_ERROR
          error_message := some "an error"
          error_name := some "blam" }
      = Except.ok r) :
    (∀ (rpc2 : Rpc) (e : RaisedError),
      matchingError rpc2 = some e →
        Rpc.readResponse rpc2 = Except.error e) ∧
    Rpc.readResponse r
      = Except.error (RaisedError.applicationError (some "an error") (some "blam")) ∧
    r.error_name = some "blam" := by
  refine ⟨?_, ?_, ?_⟩
  · intro rpc2 e he
    unfold matchingError at he
    unfold Rpc.readResponse
    cases h2 : rpc2.state <;> rw [h2] at he <;> simp_all
  · rcases set_status_ok h with ⟨s, hs, hr⟩
    cases hs
    rw [hr]
    rfl
  · rcases set_status_ok h with ⟨s, hs, hr⟩
    rw [hr]

/-- Witness for C5: the concrete test Rpc completed by
`set_status(APPLICATION_ERROR, 'an error', 'blam')`; reading its response
raises ApplicationError with message "an error" and error name "blam". -/
theorem C5_response_raises_matching_error_witness :
    Rpc.readResponse demoErrored
      = Except.error (RaisedError.applicationError (some "an error") (some "blam")) ∧
    demoErrored.error_name = some "blam" := by
  have hc := C5_response_raises_matching_error demoRpc demoErrored (by rfl)
  exact ⟨hc.2.1, hc.2.2⟩

/-- C6: For every LocalTransport call — whether the transport was
constructed with a service class or with a factory callable — whose service
method returns a response message of the declared response type, the
resulting Rpc state is OK with that message; and the request-context the
service sees is the locally-synthesized one: remote_address "127.0.0.1",
remote_host and server_host the local hostname, server_port -1. -/
theorem C6_local_transport_success
    (hostname response_type : String) (service : ServiceSpec)
    (request response : PyValue)
    (hmethod : (service.newInstance ()).method (localRequestState hostname) request
      = ServiceOutcome.returns response)
    (htype : response.isMessageOfType response_type = true) :
    (local_transport_call hostname service response_type request).state
      = RpcState.OK ∧
    (local_transport_call hostname service response_type request).response
      = some response ∧
    localRequestState hostname
      = { remote_host := hostname
          remote_address := "127.0.0.1"
          server_host := hostname
          server_port := -1 } := by
  refine ⟨?_, ?_, rfl⟩ <;>
    · simp only [local_transport_call]
      rw [hmethod]
      simp [set_response, applyOr, Rpc.create, htype]

/-- Witness for C6: a local service (used both as a class and through a
factory) that echoes the remote address of its request-context; the call
resolves OK with a response carrying "127.0.0.1". -/
theorem C6_local_transport_success_witness :
    (demoLocalService.method (localRequestState "myhost") demoRequest
        = ServiceOutcome.returns (PyValue.message "SimpleResponse" "127.0.0.1")) ∧
    (local_transport_call "myhost"
        (ServiceSpec.ofClass (fun _ => demoLocalService))
        "SimpleResponse" demoRequest).state = RpcState.OK ∧
    (local_transport_call "myhost"
        (ServiceSpec.ofClass (fun _ => demoLocalService))
        "SimpleResponse" demoRequest).response
      = some (PyValue.message "SimpleResponse" "127.0.0.1") ∧
    (local_transport_call "myhost"
        (ServiceSpec.ofFactory (fun _ => demoLocalService))
        "SimpleResponse" demoRequest).state = RpcState.OK ∧
    (local_transport_call "myhost"
        (ServiceSpec.ofFactory (fun _ => demoLocalService))
        "SimpleResponse" demoRequest).response
      = some (PyValue.message "SimpleResponse" "127.0.0.1") := by
  have hclass := C6_local_transport_success "myhost" "SimpleResponse"
    (ServiceSpec.ofClass (fun _ => demoLocalService)) demoRequest
    (PyValue.message "SimpleResponse" "127.0.0.1") (by rfl) (by rfl)
  have hfactory := C6_local_transport_success "myhost" "SimpleResponse"
    (ServiceSpec.ofFactory (fun _ => demoLocalService)) demoRequest
    (PyValue.message "SimpleResponse" "127.0.0.1") (by rfl) (by rfl)
  exact ⟨by rfl, hclass.1, hclass.2.1, hfactory.1, hfactory.2.1⟩

/-- C7: For every LocalTransport call whose service method raises an
exception other than ApplicationError — RequestError or a wholly
unrecognized type such as TypeError — the resulting Rpc terminal state is
SERVER_ERROR with message "Unexpected error <ExceptionKind>: <text>", where
<ExceptionKind> is the raised exception's type name and <text> its
message. -/
theorem C7_local_transport_unexpected_error
    (hostname response_type : String) (service : ServiceSpec)
    (request : PyValue) (kind msg : String)
    (hmethod : (service.newInstance ()).method (localRequestState hostname) request
      = ServiceOutcome.unexpected kind msg) :
    (local_transport_call hostname service response_type request).state
      = RpcState.SERVER_ERROR ∧
    (local_transport_call hostname service response_type request).error_message
      = some ("Unexpected error " ++ kind ++ ": " ++ msg) := by
  constructor <;>
    · simp only [local_transport_call]
      rw [hmethod]
      simp [set_status, applyOr, Rpc.create, ErrorState.toRpcState]

/-- Witness for C7: a local service raising `TypeError('Kablam')`; the call
resolves to SERVER_ERROR with message "Unexpected error TypeError: Kablam". -/
theorem C7_local_transport_unexpected_error_witness :
    (local_transport_call "myhost"
        (ServiceSpec.ofClass (fun _ => demoFailingService))
        "SimpleResponse" demoRequest).state = RpcState.SERVER_ERROR ∧
    (local_transport_call "myhost"
        (ServiceSpec.ofClass (fun _ => demoFailingService))
        "SimpleResponse" demoRequest).error_message
      = some "Unexpected error TypeError: Kablam" := by
  have hc := C7_local_transport_unexpected_error "myhost" "SimpleResponse"
    (ServiceSpec.ofClass (fun _ => demoFailingService)) demoRequest
    "TypeError" "Kablam" (by rfl)
  refine ⟨hc.1, ?_⟩
  rw [hc.2]
  rfl

/-- C10: When the urlfetch backend is in use and the HTTP response carries
only a numeric status code, the SERVER_ERROR message synthesizes the
standard reason phrase for that code: a 500 response with a non-matching
content-type yields error_message exactly
"HTTP Error 500: Internal Server Error". -/
theorem C10_urlfetch_synthesized_reason
    (protocol : ProtocolConfig) (request : PyValue) (response_type : String)
    (content_type : Option String) (body : String)
    (hct : content_type ≠ some protocol.content_type) :
    (urlfetch_rpc_result protocol request response_type 500 content_type body).state
      = RpcState.SERVER_ERROR ∧
    (urlfetch_rpc_result protocol request response_type 500 content_type body).error_message
      = some "HTTP Error 500: Internal Server Error" ∧
    (urlfetch_rpc_result protocol request response_type 500 content_type body).error_name
      = none := by
  have hr := handle_http_error_fallback protocol (Rpc.create request response_type)
    rfl content_type body (Or.inl hct) 500 (http_responses 500)
  have hred : urlfetch_rpc_result protocol request response_type 500 content_type body
    = handle_http_error protocol (Rpc.create request response_type)
        500 (http_responses 500) content_type body := by
    unfold urlfetch_rpc_result
    rw [if_neg (by decide)]
  rw [hred, hr]
  refine ⟨rfl, ?_, rfl⟩
  rfl

/-- Witness for C10: the urlfetch backend receiving a 500 response with
content-type "text/plain" against a protocol whose content-type is
"application/json". -/
theorem C10_urlfetch_synthesized_reason_witness :
    (urlfetch_rpc_result demoProtocol demoRequest "Message" 500
        (some "text/plain") "an error").state = RpcState.SERVER_ERROR ∧
    (urlfetch_rpc_result demoProtocol demoRequest "Message" 500
        (some "text/plain") "an error").error_message
      = some "HTTP Error 500: Internal Server Error" ∧
    (urlfetch_rpc_result demoProtocol demoRequest "Message" 500
        (some "text/plain") "an error").error_name = none :=
  C10_urlfetch_synthesized_reason demoProtocol demoRequest "Message"
    (some "text/plain") "an error" (by simp [demoProtocol])

end Transport
